import Mathlib

/-! Smart-Medical-Agent: the lookup tool, the `/api/ask` handler and the dashboard formatter.

A shallow embedding of `src/app.js` (`MedicinePrescribeTool.func`, the handler of
`POST /api/ask`) and of `src/views/javascript/dashboard.js` (`formatPrescription`).

JavaScript strings are embedded as Lean strings (sequences of Unicode scalar values;
lone surrogates are outside the embedding).  The JavaScript value `undefined` in a
place where a string is expected is embedded as `none`.
-/

namespace SmartMedicalAgent

/-! ## String builtins used by the sources -/

/-- What the JavaScript engine and the libraries supply to the program, taken as a
parameter: the builtin `String.prototype.toLowerCase`, the message of the error the tool
library throws when the tool input does not match the schema
`z.object({ symptoms: z.string() })`, and the message of the `TypeError` the engine throws
when a property of `undefined` is read. -/
structure Host where
  toLowerCase : String → String
  schemaError : String
  typeError : String

/-- The lowercase form of a character of the Latin-1 range: `A`..`Z` and the accented
capitals U+00C0..U+00DE other than the multiplication sign U+00D7 move 32 places up; every
other character is left as it is. -/
def lowerChar (c : Char) : Char :=
  let n := c.toNat
  if (0x41 ≤ n ∧ n ≤ 0x5A) ∨ (0xC0 ≤ n ∧ n ≤ 0xDE ∧ n ≠ 0xD7) then Char.ofNat (n + 32)
  else c

/-- The builtin `toLowerCase` on strings of Latin-1 characters; used for the concrete
inputs below, which are all in this range. -/
def latinToLowerCase (s : String) : String :=
  ⟨s.data.map lowerChar⟩

/-- The host of the concrete inputs below: lowercasing of Latin-1 strings and the messages
of a current Node runtime. -/
def sampleHost : Host :=
  ⟨latinToLowerCase, "Received tool input did not match expected schema",
   "Cannot read properties of undefined (reading \x27text\x27)"⟩

/-- Whether the list `p` occurs in `l` as a block of consecutive elements. -/
def includesList (p : List Char) : List Char → Bool
  | [] => p.isPrefixOf []
  | c :: cs => p.isPrefixOf (c :: cs) || includesList p cs

/-- The builtin `String.prototype.includes`: `includes s p` is `s.includes(p)`. -/
def includes (s p : String) : Bool :=
  includesList p.data s.data

/-- The builtin `String.prototype.startsWith`. -/
def startsWith (s p : String) : Bool :=
  p.data.isPrefixOf s.data

/-! ## `MedicinePrescribeTool.func` (src/app.js, lines 39-52) -/

/-- A value the property read `medicines[k]` can give: `undefined`, a string, or an
object or function, which is truthy and of which only the text a template literal shows
for it matters. -/
inductive Value where
  | undefined
  | string (s : String)
  | object (text : String)
deriving DecidableEq, Repr

/-- The table `medicineData` imported from `./medicine_data.js`, a file that is not part
of the sources at hand: it is taken as a parameter.  `entries k` is the entry of the table
under its own key `k` (a medicine name), `none` when `k` is not a key of the table.
`inherited k` is for a name `k` that the table object inherits from its prototype chain:
the text a template literal shows for the inherited value, an object or a function. -/
structure Medicines where
  entries : String → Option String
  inherited : String → Option String

/-- The property read `medicines[k]`: the own entry when `k` is a key of the table,
otherwise the inherited property when there is one, otherwise `undefined`. -/
def Medicines.read (medicines : Medicines) (k : String) : Value :=
  match medicines.entries k with
  | some med => .string med
  | none =>
    match medicines.inherited k with
    | some text => .object text
    | none => .undefined

/-- The properties a plain object inherits from `Object.prototype`, with the text Node
shows for them in a template literal. -/
def objectPrototype (k : String) : Option String :=
  if k = "constructor" then some "function Object() \x7b [native code] \x7d"
  else if k = "__proto__" then some "[object Object]"
  else if k = "toString" ∨ k = "toLocaleString" ∨ k = "valueOf" ∨ k = "hasOwnProperty"
      ∨ k = "isPrototypeOf" ∨ k = "propertyIsEnumerable" ∨ k = "__defineGetter__"
      ∨ k = "__defineSetter__" ∨ k = "__lookupGetter__" ∨ k = "__lookupSetter__" then
    some ("function " ++ k ++ "() \x7b [native code] \x7d")
  else none

/-- The prompt returned when no symptom is given (line 42). -/
def promptMessage : String := "Please provide a symptom to analyze."

/-- The message of line 46. -/
def notFoundMessage (symptoms : String) : String :=
  "No medicine found for \"" ++ symptoms ++ "\". Please consult a doctor."

/-- The fixed adult dosage line (line 50). -/
def adultDosageLine : String := "Adult Dosage: 1 tablet twice daily"

/-- The fixed child dosage line (line 51). -/
def childDosageLine : String :=
  "Child Dosage: ½ tablet twice daily (consult pediatrician before use)"

/-- The template literal of lines 48-51. -/
def foundMessage (symptoms med : String) : String :=
  "For " ++ symptoms ++ ":\nRecommended Medicine: " ++ med ++ "\n" ++ adultDosageLine
    ++ "\n" ++ childDosageLine

/-- The function `func` of `MedicinePrescribeTool`.  `symptoms = none` is the call with
`symptoms` undefined.  `!symptoms` holds for `undefined` and for the empty string; `!med`
holds for `undefined` and for the empty string, and not for an object or a function. -/
def func (host : Host) (medicines : Medicines) (symptoms : Option String) : String :=
  match symptoms with
  | none => promptMessage
  | some s =>
    if s = "" then promptMessage
    else
      match medicines.read (host.toLowerCase s) with
      | .undefined => notFoundMessage s
      | .string med =>
        if med = "" then notFoundMessage s
        else foundMessage s med
      | .object text => foundMessage s text

/-- A sample table with the three symptoms the tool description names, written as a plain
object. -/
def sampleTable : Medicines :=
  ⟨fun k =>
    if k = "fever" then some "Paracetamol"
    else if k = "headache" then some "Ibuprofen"
    else if k = "diarrhea" then some "ORS"
    else none,
   objectPrototype⟩

/-- A table with an entry under the empty key. -/
def emptyKeyTable : Medicines :=
  ⟨fun k => if k = "" then some "Aspirin" else none, objectPrototype⟩

/-- A table with a key that holds an accented letter. -/
def frenchTable : Medicines :=
  ⟨fun k => if k = "fièvre" then some "Paracétamol" else none, objectPrototype⟩

/-! ## The handler of `POST /api/ask` (src/app.js, lines 72-91) -/

/-- The argument object of a tool call: its `symptoms` property when that is a string,
`none` when the property is absent or not a string. -/
structure ToolArgs where
  symptoms : Option String
deriving DecidableEq, Repr

/-- One entry of `result.tool_calls`. -/
structure ToolCall where
  name : String
  args : ToolArgs
deriving DecidableEq, Repr

/-- One segment of an array-valued message content: its `text` property, when it has one. -/
structure ContentBlock where
  text : Option String
deriving DecidableEq, Repr

/-- The `content` of the message the model returns: a bare string, or an array of
segments. -/
inductive MessageContent where
  | str (s : String)
  | blocks (bs : List ContentBlock)
deriving DecidableEq, Repr

/-- The message `agent.invoke` resolves to.  `tool_calls = none` is an undefined
`tool_calls` property. -/
structure ModelResult where
  tool_calls : Option (List ToolCall)
  content : MessageContent
deriving DecidableEq, Repr

/-- The bound model `agent`: the outcome of `await agent.invoke(question)`, either a
thrown error (its message) or a message.  The remote model is outside the program and is
taken as a parameter. -/
abbrev Agent := String → Except String ModelResult

/-- The JSON object passed to `res.json`; a field that is `none` is not part of the
object (`JSON.stringify` leaves out a property whose value is `undefined`). -/
structure JsonBody where
  error : Option String
  response : Option String
  type : Option String
deriving DecidableEq, Repr

/-- One answer written on `res`: the status code and the JSON body. -/
structure Answer where
  status : Nat
  body : JsonBody
deriving DecidableEq, Repr

/-- What one run of the handler did: the answers written on `res`, in order, and the
questions submitted to the model, in order. -/
structure Trace where
  answers : List Answer
  modelCalls : List String
deriving DecidableEq, Repr

/-- The state before the handler runs. -/
def Trace.init : Trace := ⟨[], []⟩

/-- The call `res.status(status).json(body)`. -/
def Trace.json (t : Trace) (status : Nat) (body : JsonBody) : Trace :=
  { t with answers := t.answers ++ [⟨status, body⟩] }

/-- Records a call `agent.invoke(question)`. -/
def Trace.invoke (t : Trace) (question : String) : Trace :=
  { t with modelCalls := t.modelCalls ++ [question] }

/-- The message of the 400 answer (line 76). -/
def missingQuestion : String := "Missing \x27question\x27 field"

/-- The call `MedicinePrescribeTool.invoke(call.args)` of line 82: the argument object is
checked against the schema (a string `symptoms` is required; the empty string passes),
then `func` runs on it. -/
def toolInvoke (host : Host) (medicines : Medicines) (args : ToolArgs) :
    Except String String :=
  match args.symptoms with
  | none => .error host.schemaError
  | some s => .ok (func host medicines (some s))

/-- The expression `result.content[0].text` of line 86.  On a bare string,
`content[0]` is its first character (a string, which has no `text` property) or
undefined when the string is empty; on an array it is the first segment or undefined when
the array is empty. -/
def firstText (host : Host) (content : MessageContent) : Except String (Option String) :=
  match content with
  | .str s => if s = "" then .error host.typeError else .ok none
  | .blocks [] => .error host.typeError
  | .blocks (b :: _) => .ok b.text

/-- The body of the `try` block, lines 74-86: the trace it leaves and whether it threw.
`question = none` is a body without a `question` field. -/
def tryBlock (host : Host) (agent : Agent) (medicines : Medicines) (question : Option String)
    (t : Trace) : Trace × Except String Unit :=
  match question with
  | none => (t.json 400 ⟨some missingQuestion, none, none⟩, .ok ())
  | some q =>
    if q = "" then (t.json 400 ⟨some missingQuestion, none, none⟩, .ok ())
    else
      let t := t.invoke q
      match agent q with
      | .error m => (t, .error m)
      | .ok result =>
        match result.tool_calls with
        | some (call :: _) =>
          match toolInvoke host medicines call.args with
          | .error m => (t, .error m)
          | .ok response => (t.json 200 ⟨none, some response, some "prescription"⟩, .ok ())
        | _ =>
          match firstText host result.content with
          | .error m => (t, .error m)
          | .ok text => (t.json 200 ⟨none, text, some "general"⟩, .ok ())

/-- The handler of `POST /api/ask`: the `try` block, and the `catch` block of lines 87-90
when it threw. -/
def askHandler (host : Host) (agent : Agent) (medicines : Medicines)
    (question : Option String) : Trace :=
  match tryBlock host agent medicines question Trace.init with
  | (t, .ok _) => t
  | (t, .error m) => t.json 500 ⟨some m, none, none⟩

/-- A model that answers every question with one tool call for `fever`. -/
def feverAgent : Agent := fun _ =>
  .ok ⟨some [⟨"MedicinePrescribeTool", ⟨some "fever"⟩⟩], .blocks []⟩

/-- A model that answers every question with the text segment `Hello`. -/
def helloAgent : Agent := fun _ => .ok ⟨some [], .blocks [⟨some "Hello"⟩]⟩

/-- A model that answers every question with the bare string `Hello`. -/
def helloStringAgent : Agent := fun _ => .ok ⟨some [], .str "Hello"⟩

/-- A model whose call fails. -/
def failingAgent : Agent := fun _ => .error "fetch failed"

/-- A model that asks for the tool without a `symptoms` argument. -/
def badArgsAgent : Agent := fun _ =>
  .ok ⟨some [⟨"MedicinePrescribeTool", ⟨none⟩⟩], .blocks [⟨some "Hello"⟩]⟩

/-- Whether a model result carries no tool call: `tool_calls` is undefined or empty. -/
def noToolCall (r : ModelResult) : Prop :=
  r.tool_calls = none ∨ r.tool_calls = some []

/-- The outcomes of the handler: the six shapes its trace can have. -/
inductive Outcome (host : Host) (agent : Agent) (medicines : Medicines)
    (question : Option String) :
    Trace → Prop where
  | missing (h : question = none ∨ question = some "") :
      Outcome host agent medicines question ⟨[⟨400, ⟨some missingQuestion, none, none⟩⟩], []⟩
  | modelError (q m : String) (hq : question = some q) (hne : q ≠ "")
      (h : agent q = .error m) :
      Outcome host agent medicines question ⟨[⟨500, ⟨some m, none, none⟩⟩], [q]⟩
  | prescription (q : String) (r : ModelResult) (call : ToolCall) (rest : List ToolCall)
      (out : String) (hq : question = some q) (hne : q ≠ "") (h : agent q = .ok r)
      (hcalls : r.tool_calls = some (call :: rest))
      (hout : toolInvoke host medicines call.args = .ok out) :
      Outcome host agent medicines question ⟨[⟨200, ⟨none, some out, some "prescription"⟩⟩], [q]⟩
  | toolError (q : String) (r : ModelResult) (call : ToolCall) (rest : List ToolCall)
      (m : String) (hq : question = some q) (hne : q ≠ "") (h : agent q = .ok r)
      (hcalls : r.tool_calls = some (call :: rest))
      (herr : toolInvoke host medicines call.args = .error m) :
      Outcome host agent medicines question ⟨[⟨500, ⟨some m, none, none⟩⟩], [q]⟩
  | general (q : String) (r : ModelResult) (text : Option String)
      (hq : question = some q) (hne : q ≠ "") (h : agent q = .ok r) (hcalls : noToolCall r)
      (htext : firstText host r.content = .ok text) :
      Outcome host agent medicines question ⟨[⟨200, ⟨none, text, some "general"⟩⟩], [q]⟩
  | contentError (q : String) (r : ModelResult) (m : String)
      (hq : question = some q) (hne : q ≠ "") (h : agent q = .ok r) (hcalls : noToolCall r)
      (htext : firstText host r.content = .error m) :
      Outcome host agent medicines question ⟨[⟨500, ⟨some m, none, none⟩⟩], [q]⟩

/-- The request was dispatched to the tool: the question is not empty, the model call
succeeded, its result carries at least one tool call, and the tool invocation on the first
one succeeded. -/
def dispatched (host : Host) (agent : Agent) (medicines : Medicines)
    (question : Option String) : Prop :=
  ∃ q r call rest out, question = some q ∧ q ≠ "" ∧ agent q = .ok r
    ∧ r.tool_calls = some (call :: rest) ∧ toolInvoke host medicines call.args = .ok out

/-- The answer to a question that the model turns into a tool call for `fever`, with the
sample table. -/
def feverAnswer : Answer :=
  ⟨200, ⟨none, some (foundMessage "fever" "Paracetamol"), some "prescription"⟩⟩

/-- A model result with two tool calls, for `fever` and then for `headache`, and a text
segment. -/
def twoCallsAgent : Agent := fun _ =>
  .ok ⟨some [⟨"MedicinePrescribeTool", ⟨some "fever"⟩⟩,
             ⟨"MedicinePrescribeTool", ⟨some "headache"⟩⟩], .blocks [⟨some "Hello"⟩]⟩

/-! ## `formatPrescription` (src/views/javascript/dashboard.js, lines 166-209) -/

/-- The characters `String.prototype.trim` strips: white space and line terminators. -/
def isWhiteSpace (c : Char) : Bool :=
  let n := c.toNat
  n = 0x09 || n = 0x0A || n = 0x0B || n = 0x0C || n = 0x0D || n = 0x20 || n = 0xA0
    || n = 0x1680 || (0x2000 ≤ n && n ≤ 0x200A) || n = 0x2028 || n = 0x2029
    || n = 0x202F || n = 0x205F || n = 0x3000 || n = 0xFEFF

/-- Strips the white space at both ends of a list of characters. -/
def trimList (l : List Char) : List Char :=
  ((l.dropWhile isWhiteSpace).reverse.dropWhile isWhiteSpace).reverse

/-- The builtin `String.prototype.trim`. -/
def trim (s : String) : String :=
  ⟨trimList s.data⟩

/-- Splits a list of characters at every occurrence of `sep`; the pieces may be empty and
there is always at least one. -/
def splitList (sep : Char) : List Char → List (List Char)
  | [] => [[]]
  | c :: cs =>
    if c = sep then [] :: splitList sep cs
    else
      match splitList sep cs with
      | [] => [[c]]
      | piece :: pieces => (c :: piece) :: pieces

/-- The builtin `String.prototype.split` with a separator of one character. -/
def split (s : String) (sep : Char) : List String :=
  (splitList sep s.data).map String.mk

/-- The text a character becomes when a text node is serialised. -/
def escapeChar (c : Char) : List Char :=
  if c = '&' then "&amp;".data
  else if c = '<' then "&lt;".data
  else if c = '>' then "&gt;".data
  else if c.toNat = 0xA0 then "&nbsp;".data
  else [c]

/-- The function `escapeHtml` (lines 232-236): the text is stored as the text content of
an element, whose markup is read back. -/
def escapeHtml (text : String) : String :=
  ⟨text.data.flatMap escapeChar⟩

/-- What one line of a prescription is shown as: the three branches of the loop body,
lines 174-191. -/
inductive Block where
  | header (line : String)
  | card (label value : String)
  | paragraph (line : String)
deriving DecidableEq, Repr

/-- The branch taken for a trimmed line (lines 174, 181-182, 189).  The destructuring
`[label, value]` keeps the first two pieces of the line split at its colons, trimmed; a
line that holds a colon always has two pieces, so the last case is never reached. -/
def classify (trimmedLine : String) : Block :=
  if startsWith trimmedLine "For " then .header trimmedLine
  else if includes trimmedLine ":" then
    match (split trimmedLine ':').map trim with
    | label :: value :: _ => .card label value
    | _ => .paragraph trimmedLine
  else .paragraph trimmedLine

/-- The markup appended for a line (lines 175-180, 183-188, 190). -/
def renderBlock : Block → String
  | .header line =>
    "<div class=\"flex items-center space-x-2 text-emerald-700 font-semibold mb-3\">\n" ++
    "        <svg class=\"w-5 h-5\" fill=\"none\" stroke=\"currentColor\" viewBox=\"0 0 24 24\">\n" ++
    "          <path stroke-linecap=\"round\" stroke-linejoin=\"round\" stroke-width=\"2\" d=\"M9 12l2 2 4-4m6 2a9 9 0 11-18 0 9 9 0 0118 0z\"/>\n" ++
    "        </svg>\n" ++
    "        <span>" ++ escapeHtml line ++ "</span>\n" ++
    "      </div>"
  | .card label value =>
    "\n" ++
    "        <div class=\"p-4 bg-emerald-50 border border-emerald-100 rounded-xl\">\n" ++
    "          <div class=\"font-semibold text-slate-900 mb-1\">" ++ escapeHtml label ++ "</div>\n" ++
    "          <div class=\"text-slate-700\">" ++ escapeHtml value ++ "</div>\n" ++
    "        </div>\n" ++
    "      "
  | .paragraph line =>
    "<p class=\"text-slate-700\">" ++ escapeHtml line ++ "</p>"

/-- The disclaimer appended after the lines (lines 197-206). -/
def disclaimer : String :=
  "\n" ++
  "    <div class=\"mt-4 p-4 bg-amber-50 border border-amber-200 rounded-xl flex items-start space-x-3\">\n" ++
  "      <svg class=\"w-5 h-5 text-amber-600 flex-shrink-0 mt-0.5\" fill=\"none\" stroke=\"currentColor\" viewBox=\"0 0 24 24\">\n" ++
  "        <path stroke-linecap=\"round\" stroke-linejoin=\"round\" stroke-width=\"2\" d=\"M12 9v2m0 4h.01m-6.938 4h13.856c1.54 0 2.502-1.667 1.732-3L13.732 4c-.77-1.333-2.694-1.333-3.464 0L3.34 16c-.77 1.333.192 3 1.732 3z\"/>\n" ++
  "      </svg>\n" ++
  "      <div class=\"text-sm text-amber-800\">\n" ++
  "        <strong>Important:</strong> This is general information. Please consult a licensed healthcare professional before taking any medication.\n" ++
  "      </div>\n" ++
  "    </div>\n" ++
  "  "

/-- The lines the loop runs over (line 167): the pieces of the text between newlines
whose trimmed form is not empty. -/
def prescriptionLines (text : String) : List String :=
  (split text '\n').filter (fun line => trim line ≠ "")

/-- The blocks shown for a text, in order: one per line of `prescriptionLines`. -/
def prescriptionBlocks (text : String) : List Block :=
  (prescriptionLines text).map (fun line => classify (trim line))

/-- The function `formatPrescription`: the markup of the blocks inside the wrapper of
lines 169 and 194, followed by the disclaimer. -/
def formatPrescription (text : String) : String :=
  "<div class=\"space-y-4\">" ++ String.join ((prescriptionBlocks text).map renderBlock)
    ++ "</div>" ++ disclaimer

/-- The test of line 147 that sends an assistant message through `formatPrescription`. -/
def isPrescription (text type : String) : Bool :=
  type = "prescription" || includes text "Recommended Medicine" || includes text "Adult Dosage"

/-- A table whose entry for `fever` is the empty string. -/
def emptyValueTable : Medicines :=
  ⟨fun k => if k = "fever" then some "" else none, objectPrototype⟩

/-- A table whose medicine name for `fever` holds a colon. -/
def colonTable : Medicines :=
  ⟨fun k => if k = "fever" then some "Paracetamol: 500mg" else none, objectPrototype⟩

set_option maxRecDepth 100000

/-! ## Lemmas on the string builtins -/

theorem includesList_iff (p l : List Char) : includesList p l = true ↔ p <:+: l := by
  induction l with
  | nil =>
    simp [includesList]
  | cons c cs ih =>
    simp only [includesList, Bool.or_eq_true, ih, List.isPrefixOf_iff_prefix]
    rw [List.infix_cons_iff]

theorem includes_iff (s p : String) : includes s p = true ↔ p.data <:+: s.data :=
  includesList_iff p.data s.data

theorem includes_append_mid (a p b : String) : includes (a ++ p ++ b) p = true := by
  rw [includes_iff]
  exact ⟨a.data, b.data, by simp [String.data_append]⟩

theorem includes_append_right (a p : String) : includes (a ++ p) p = true := by
  rw [includes_iff]
  exact ⟨a.data, [], by simp [String.data_append]⟩

/-! ## Lemmas on `func` -/

theorem read_of_entry (medicines : Medicines) (k med : String)
    (h : medicines.entries k = some med) : medicines.read k = .string med := by
  simp [Medicines.read, h]

theorem func_found (host : Host) (medicines : Medicines) (s med : String) (hs : s ≠ "")
    (hm : med ≠ "") (h : medicines.read (host.toLowerCase s) = .string med) :
    func host medicines (some s) = foundMessage s med := by
  simp [func, hs, hm, h]

theorem func_object (host : Host) (medicines : Medicines) (s text : String) (hs : s ≠ "")
    (h : medicines.read (host.toLowerCase s) = .object text) :
    func host medicines (some s) = foundMessage s text := by
  simp [func, hs, h]

theorem func_absent (host : Host) (medicines : Medicines) (s : String) (hs : s ≠ "")
    (h : medicines.read (host.toLowerCase s) = .undefined) :
    func host medicines (some s) = notFoundMessage s := by
  simp [func, hs, h]

theorem func_empty_entry (host : Host) (medicines : Medicines) (s : String) (hs : s ≠ "")
    (h : medicines.read (host.toLowerCase s) = .string "") :
    func host medicines (some s) = notFoundMessage s := by
  simp [func, hs, h]

/-- The output of `func` on a non-empty symptom is fixed by the symptom and the value read
under its lowercase form: the not-found message for a falsy value, the found message for
a truthy one. -/
theorem func_cases (host : Host) (medicines : Medicines) (s : String) :
    ((medicines.read (host.toLowerCase s) = .undefined
          ∨ medicines.read (host.toLowerCase s) = .string "")
        ∧ ∀ s2 : String, s2 ≠ "" → host.toLowerCase s2 = host.toLowerCase s →
            func host medicines (some s2) = notFoundMessage s2)
      ∨ ∃ med, (medicines.read (host.toLowerCase s) = .string med
            ∨ medicines.read (host.toLowerCase s) = .object med)
          ∧ ∀ s2 : String, s2 ≠ "" → host.toLowerCase s2 = host.toLowerCase s →
              func host medicines (some s2) = foundMessage s2 med := by
  cases h : medicines.read (host.toLowerCase s) with
  | undefined =>
    refine Or.inl ⟨Or.inl rfl, fun s2 hs2 hl => ?_⟩
    exact func_absent host medicines s2 hs2 (by rw [hl]; exact h)
  | string med =>
    by_cases hm : med = ""
    · subst hm
      refine Or.inl ⟨Or.inr rfl, fun s2 hs2 hl => ?_⟩
      exact func_empty_entry host medicines s2 hs2 (by rw [hl]; exact h)
    · refine Or.inr ⟨med, Or.inl rfl, fun s2 hs2 hl => ?_⟩
      exact func_found host medicines s2 med hs2 hm (by rw [hl]; exact h)
  | object text =>
    refine Or.inr ⟨text, Or.inr rfl, fun s2 hs2 hl => ?_⟩
    exact func_object host medicines s2 text hs2 (by rw [hl]; exact h)

/-! ## The lookup tool: claims C1 to C4 -/

/-- C1, as stated, fails at two inputs.  The empty string is a key of `emptyKeyTable` and
is its own lowercase form, and the lookup on it returns the prompt, which has no dosage
line.  And `fever` is a key of `emptyValueTable`, whose entry is the empty string: the
lookup returns the not-found message, which has no dosage line either. -/
theorem C1_counterexample :
    (emptyKeyTable.entries "" = some "Aspirin" ∧ sampleHost.toLowerCase "" = ""
        ∧ func sampleHost emptyKeyTable (some "") = "Please provide a symptom to analyze."
        ∧ includes (func sampleHost emptyKeyTable (some ""))
            "Adult Dosage: 1 tablet twice daily" = false)
      ∧ (emptyValueTable.entries "fever" = some "" ∧ sampleHost.toLowerCase "fever" = "fever"
        ∧ includes (func sampleHost emptyValueTable (some "fever"))
            "Adult Dosage: 1 tablet twice daily" = false) := by
  decide

/-- C1, amended: for every table and every non-empty lowercase key `s` whose entry is a
non-empty medicine name `med`, the lookup on `s` returns the four-line text of lines
48-51, which contains `med`, the line `Recommended Medicine: med`, the fixed adult dosage
line and the fixed child dosage line. -/
theorem C1_lookup_known_key (host : Host) (medicines : Medicines) (s med : String)
    (hs : s ≠ "") (hm : med ≠ "") (hlower : host.toLowerCase s = s)
    (hkey : medicines.entries s = some med) :
    func host medicines (some s)
        = "For " ++ s ++ ":\nRecommended Medicine: " ++ med
            ++ "\nAdult Dosage: 1 tablet twice daily"
            ++ "\nChild Dosage: ½ tablet twice daily (consult pediatrician before use)"
      ∧ includes (func host medicines (some s)) med = true
      ∧ includes (func host medicines (some s)) ("Recommended Medicine: " ++ med) = true
      ∧ includes (func host medicines (some s)) "Adult Dosage: 1 tablet twice daily" = true
      ∧ includes (func host medicines (some s))
          "Child Dosage: ½ tablet twice daily (consult pediatrician before use)" = true := by
  have hfound : func host medicines (some s) = foundMessage s med :=
    func_found host medicines s med hs hm
      (by rw [hlower]; exact read_of_entry medicines s med hkey)
  rw [hfound]
  refine ⟨?_, ?_, ?_, ?_, ?_⟩
  · simp [foundMessage, adultDosageLine, childDosageLine, String.append_assoc]
  · rw [includes_iff]
    exact ⟨("For " ++ s ++ ":\nRecommended Medicine: ").data,
      ("\n" ++ adultDosageLine ++ "\n" ++ childDosageLine).data,
      by simp [foundMessage, String.data_append]⟩
  · rw [includes_iff]
    exact ⟨("For " ++ s ++ ":\n").data,
      ("\n" ++ adultDosageLine ++ "\n" ++ childDosageLine).data,
      by simp [foundMessage, String.data_append]⟩
  · rw [includes_iff]
    exact ⟨("For " ++ s ++ ":\nRecommended Medicine: " ++ med ++ "\n").data,
      ("\n" ++ childDosageLine).data,
      by simp [foundMessage, adultDosageLine, String.data_append]⟩
  · rw [includes_iff]
    exact ⟨("For " ++ s ++ ":\nRecommended Medicine: " ++ med ++ "\n" ++ adultDosageLine
        ++ "\n").data, [],
      by simp [foundMessage, childDosageLine, String.data_append]⟩

/-- C1, amended, at the key `fever` of the sample table. -/
theorem C1_lookup_known_key_witness :
    func sampleHost sampleTable (some "fever")
        = "For " ++ "fever" ++ ":\nRecommended Medicine: " ++ "Paracetamol"
            ++ "\nAdult Dosage: 1 tablet twice daily"
            ++ "\nChild Dosage: ½ tablet twice daily (consult pediatrician before use)"
      ∧ includes (func sampleHost sampleTable (some "fever")) "Paracetamol" = true
      ∧ includes (func sampleHost sampleTable (some "fever"))
          ("Recommended Medicine: " ++ "Paracetamol") = true
      ∧ includes (func sampleHost sampleTable (some "fever"))
          "Adult Dosage: 1 tablet twice daily" = true
      ∧ includes (func sampleHost sampleTable (some "fever"))
          "Child Dosage: ½ tablet twice daily (consult pediatrician before use)" = true :=
  C1_lookup_known_key sampleHost sampleTable "fever" "Paracetamol" (by decide) (by decide)
    (by decide) (by decide)

/-- C2, as stated, fails: `Fever` and `fever` differ only in letter case, and the lookup
outputs on them differ, since each quotes the symptom as it was typed. -/
theorem C2_counterexample :
    sampleHost.toLowerCase "Fever" = sampleHost.toLowerCase "fever"
      ∧ func sampleHost sampleTable (some "Fever")
          = "For Fever:\nRecommended Medicine: Paracetamol\nAdult Dosage: 1 tablet twice daily\nChild Dosage: ½ tablet twice daily (consult pediatrician before use)"
      ∧ func sampleHost sampleTable (some "fever")
          = "For fever:\nRecommended Medicine: Paracetamol\nAdult Dosage: 1 tablet twice daily\nChild Dosage: ½ tablet twice daily (consult pediatrician before use)"
      ∧ func sampleHost sampleTable (some "Fever")
          ≠ func sampleHost sampleTable (some "fever") := by
  decide

/-- C2, amended: the lookup is case-insensitive in the table read it makes.  For every
lowercasing builtin, every table and all non-empty `s` and `s2` with the same lowercase
form, either both outputs are the not-found message or both are the found message with
the same text read from the table under that lowercase form; each output quotes its own
symptom as typed. -/
theorem C2_lookup_same_entry (host : Host) (medicines : Medicines) (s s2 : String)
    (hs : s ≠ "") (hs2 : s2 ≠ "") (hcase : host.toLowerCase s = host.toLowerCase s2) :
    (func host medicines (some s)
          = "No medicine found for \"" ++ s ++ "\". Please consult a doctor."
        ∧ func host medicines (some s2)
            = "No medicine found for \"" ++ s2 ++ "\". Please consult a doctor.")
      ∨ ∃ med, (medicines.read (host.toLowerCase s) = .string med
            ∨ medicines.read (host.toLowerCase s) = .object med)
          ∧ func host medicines (some s) = foundMessage s med
          ∧ func host medicines (some s2) = foundMessage s2 med := by
  rcases func_cases host medicines s with ⟨-, h⟩ | ⟨med, hmed, h⟩
  · left
    exact ⟨by rw [h s hs rfl]; rfl, by rw [h s2 hs2 hcase.symm]; rfl⟩
  · right
    exact ⟨med, hmed, h s hs rfl, h s2 hs2 hcase.symm⟩

/-- C2, amended, at `FIÈVRE` and `fièvre` in a table keyed `fièvre`. -/
theorem C2_lookup_same_entry_witness :
    (func sampleHost frenchTable (some "FIÈVRE")
          = "No medicine found for \"" ++ "FIÈVRE" ++ "\". Please consult a doctor."
        ∧ func sampleHost frenchTable (some "fièvre")
            = "No medicine found for \"" ++ "fièvre" ++ "\". Please consult a doctor.")
      ∨ ∃ med, (frenchTable.read (sampleHost.toLowerCase "FIÈVRE") = .string med
            ∨ frenchTable.read (sampleHost.toLowerCase "FIÈVRE") = .object med)
          ∧ func sampleHost frenchTable (some "FIÈVRE") = foundMessage "FIÈVRE" med
          ∧ func sampleHost frenchTable (some "fièvre") = foundMessage "fièvre" med :=
  C2_lookup_same_entry sampleHost frenchTable "FIÈVRE" "fièvre" (by decide) (by decide)
    (by decide)

/-- C3, as stated, fails: the lowercase form of `Paracetamol` is not a key of the sample
table, `Paracetamol` is the medicine name of its key `fever`, and the message returned
for the symptom `Paracetamol` quotes it, so it contains a medicine name of the table. -/
theorem C3_counterexample :
    sampleTable.entries (sampleHost.toLowerCase "Paracetamol") = none
      ∧ sampleTable.entries "fever" = some "Paracetamol"
      ∧ func sampleHost sampleTable (some "Paracetamol")
          = "No medicine found for \"Paracetamol\". Please consult a doctor."
      ∧ includes (func sampleHost sampleTable (some "Paracetamol")) "Paracetamol" = true := by
  decide

/-- C3, amended: for every lowercasing builtin, every table and every non-empty `s` whose
lowercase form is neither a key of the table nor a name the table object inherits, the
lookup returns exactly the not-found message quoting `s`; the message contains `s`
literally and is the same for every such table, so no value of a table takes part in
it. -/
theorem C3_lookup_unknown (host : Host) (medicines : Medicines) (s : String)
    (hs : s ≠ "") (hkey : medicines.entries (host.toLowerCase s) = none)
    (hinherited : medicines.inherited (host.toLowerCase s) = none) :
    func host medicines (some s)
        = "No medicine found for \"" ++ s ++ "\". Please consult a doctor."
      ∧ includes (func host medicines (some s)) s = true
      ∧ ∀ other : Medicines, other.entries (host.toLowerCase s) = none →
          other.inherited (host.toLowerCase s) = none →
          func host other (some s) = func host medicines (some s) := by
  have hread : ∀ t : Medicines, t.entries (host.toLowerCase s) = none →
      t.inherited (host.toLowerCase s) = none →
      t.read (host.toLowerCase s) = .undefined := by
    intro t h1 h2
    simp [Medicines.read, h1, h2]
  have h := func_absent host medicines s hs (hread medicines hkey hinherited)
  refine ⟨by rw [h]; rfl, ?_, ?_⟩
  · rw [h]
    exact includes_append_mid "No medicine found for \"" s "\". Please consult a doctor."
  · intro other h1 h2
    rw [h, func_absent host other s hs (hread other h1 h2)]

/-- C3, amended, at the symptom `Cough` in the sample table. -/
theorem C3_lookup_unknown_witness :
    func sampleHost sampleTable (some "Cough")
        = "No medicine found for \"" ++ "Cough" ++ "\". Please consult a doctor."
      ∧ includes (func sampleHost sampleTable (some "Cough")) "Cough" = true
      ∧ ∀ other : Medicines, other.entries (sampleHost.toLowerCase "Cough") = none →
          other.inherited (sampleHost.toLowerCase "Cough") = none →
          func sampleHost other (some "Cough") = func sampleHost sampleTable (some "Cough") :=
  C3_lookup_unknown sampleHost sampleTable "Cough" (by decide) (by decide) (by decide)

/-- The read of a name the table object inherits: in a table written as a plain object,
the symptom `constructor` is no key, and the lookup on it returns the found message with
the text of the inherited function. -/
theorem func_inherited_name :
    sampleTable.entries (sampleHost.toLowerCase "constructor") = none
      ∧ func sampleHost sampleTable (some "constructor")
          = foundMessage "constructor" "function Object() \x7b [native code] \x7d" := by
  decide

/-- C4: for every table, the lookup on an undefined symptom and the lookup on the empty
string both return exactly the prompt `Please provide a symptom to analyze.`; the table
is not read, so the same holds for a table with an entry under the empty key. -/
theorem C4_lookup_empty (host : Host) (medicines : Medicines) :
    func host medicines none = "Please provide a symptom to analyze."
      ∧ func host medicines (some "") = "Please provide a symptom to analyze."
      ∧ emptyKeyTable.entries "" = some "Aspirin"
      ∧ func host emptyKeyTable (some "") = "Please provide a symptom to analyze." := by
  refine ⟨?_, ?_, ?_, ?_⟩ <;> simp [func, promptMessage, emptyKeyTable]

/-! ## The handler: claims C5 to C9 -/

theorem askHandler_absent (host : Host) (agent : Agent) (medicines : Medicines) :
    askHandler host agent medicines none
      = ⟨[⟨400, ⟨some missingQuestion, none, none⟩⟩], []⟩ := by
  simp [askHandler, tryBlock, Trace.json, Trace.init]

theorem askHandler_empty (host : Host) (agent : Agent) (medicines : Medicines) :
    askHandler host agent medicines (some "")
      = ⟨[⟨400, ⟨some missingQuestion, none, none⟩⟩], []⟩ := by
  simp [askHandler, tryBlock, Trace.json, Trace.init]

theorem askHandler_model_error (host : Host) (agent : Agent) (medicines : Medicines) (q m : String)
    (hq : q ≠ "") (h : agent q = .error m) :
    askHandler host agent medicines (some q) = ⟨[⟨500, ⟨some m, none, none⟩⟩], [q]⟩ := by
  simp [askHandler, tryBlock, Trace.json, Trace.invoke, Trace.init, hq, h]

theorem askHandler_tool_ok (host : Host) (agent : Agent) (medicines : Medicines) (q : String)
    (r : ModelResult) (call : ToolCall) (rest : List ToolCall) (out : String)
    (hq : q ≠ "") (h : agent q = .ok r) (hcalls : r.tool_calls = some (call :: rest))
    (hout : toolInvoke host medicines call.args = .ok out) :
    askHandler host agent medicines (some q)
      = ⟨[⟨200, ⟨none, some out, some "prescription"⟩⟩], [q]⟩ := by
  simp [askHandler, tryBlock, Trace.json, Trace.invoke, Trace.init, hq, h, hcalls, hout]

theorem askHandler_tool_error (host : Host) (agent : Agent) (medicines : Medicines) (q : String)
    (r : ModelResult) (call : ToolCall) (rest : List ToolCall) (m : String)
    (hq : q ≠ "") (h : agent q = .ok r) (hcalls : r.tool_calls = some (call :: rest))
    (herr : toolInvoke host medicines call.args = .error m) :
    askHandler host agent medicines (some q) = ⟨[⟨500, ⟨some m, none, none⟩⟩], [q]⟩ := by
  simp [askHandler, tryBlock, Trace.json, Trace.invoke, Trace.init, hq, h, hcalls, herr]

theorem askHandler_text_ok (host : Host) (agent : Agent) (medicines : Medicines) (q : String)
    (r : ModelResult) (text : Option String)
    (hq : q ≠ "") (h : agent q = .ok r) (hcalls : noToolCall r)
    (htext : firstText host r.content = .ok text) :
    askHandler host agent medicines (some q) = ⟨[⟨200, ⟨none, text, some "general"⟩⟩], [q]⟩ := by
  rcases hcalls with hcalls | hcalls <;>
    simp [askHandler, tryBlock, Trace.json, Trace.invoke, Trace.init, hq, h, hcalls, htext]

theorem askHandler_text_error (host : Host) (agent : Agent) (medicines : Medicines) (q : String)
    (r : ModelResult) (m : String)
    (hq : q ≠ "") (h : agent q = .ok r) (hcalls : noToolCall r)
    (htext : firstText host r.content = .error m) :
    askHandler host agent medicines (some q) = ⟨[⟨500, ⟨some m, none, none⟩⟩], [q]⟩ := by
  rcases hcalls with hcalls | hcalls <;>
    simp [askHandler, tryBlock, Trace.json, Trace.invoke, Trace.init, hq, h, hcalls, htext]

theorem toolCalls_cases (r : ModelResult) :
    noToolCall r ∨ ∃ call rest, r.tool_calls = some (call :: rest) := by
  cases h : r.tool_calls with
  | none => exact Or.inl (Or.inl h)
  | some calls =>
    cases calls with
    | nil => exact Or.inl (Or.inr h)
    | cons call rest => exact Or.inr ⟨call, rest, rfl⟩

theorem askHandler_outcome (host : Host) (agent : Agent) (medicines : Medicines)
    (question : Option String) :
    Outcome host agent medicines question (askHandler host agent medicines question) := by
  cases question with
  | none =>
    rw [askHandler_absent]
    exact .missing (Or.inl rfl)
  | some q =>
    by_cases hq : q = ""
    · subst hq
      rw [askHandler_empty]
      exact .missing (Or.inr rfl)
    · cases h : agent q with
      | error m =>
        rw [askHandler_model_error host agent medicines q m hq h]
        exact .modelError q m rfl hq h
      | ok r =>
        rcases toolCalls_cases r with hcalls | ⟨call, rest, hcalls⟩
        · cases htext : firstText host r.content with
          | error m =>
            rw [askHandler_text_error host agent medicines q r m hq h hcalls htext]
            exact .contentError q r m rfl hq h hcalls htext
          | ok text =>
            rw [askHandler_text_ok host agent medicines q r text hq h hcalls htext]
            exact .general q r text rfl hq h hcalls htext
        · cases hout : toolInvoke host medicines call.args with
          | error m =>
            rw [askHandler_tool_error host agent medicines q r call rest m hq h hcalls hout]
            exact .toolError q r call rest m rfl hq h hcalls hout
          | ok out =>
            rw [askHandler_tool_ok host agent medicines q r call rest out hq h hcalls hout]
            exact .prescription q r call rest out rfl hq h hcalls hout

theorem dispatched_of (host : Host) (agent : Agent) (medicines : Medicines) (q : String) (r : ModelResult)
    (call : ToolCall) (rest : List ToolCall) (out : String) (hne : q ≠ "")
    (h : agent q = .ok r) (hcalls : r.tool_calls = some (call :: rest))
    (hout : toolInvoke host medicines call.args = .ok out) :
    dispatched host agent medicines (some q) :=
  ⟨q, r, call, rest, out, rfl, hne, h, hcalls, hout⟩

theorem not_dispatched_of_noToolCall (host : Host) (agent : Agent) (medicines : Medicines) (q : String)
    (r : ModelResult) (h : agent q = .ok r) (hcalls : noToolCall r) :
    ¬ dispatched host agent medicines (some q) := by
  rintro ⟨q2, r2, call, rest, out, hq, -, h2, hcalls2, -⟩
  cases hq
  rw [h] at h2
  cases h2
  rcases hcalls with hc | hc <;> rw [hc] at hcalls2 <;> cases hcalls2

/-- C5, as stated, fails: when the model call throws, the answer is a 500 whose body has
an error field and no type, not the type `general`; the same holds for the 400 answer to
a request without a question. -/
theorem C5_counterexample :
    askHandler sampleHost failingAgent sampleTable (some "hi")
        = ⟨[⟨500, ⟨some "fetch failed", none, none⟩⟩], ["hi"]⟩
      ∧ (∀ a ∈ (askHandler sampleHost failingAgent sampleTable (some "hi")).answers,
          a.body.type ≠ some "general" ∧ a.body.type ≠ some "prescription")
      ∧ (∀ a ∈ (askHandler sampleHost helloAgent sampleTable none).answers,
          a.status = 400 ∧ a.body.type ≠ some "general") := by
  decide

/-- C5, amended: for every request and every model, an answer of the handler has type
`prescription` if and only if the request was dispatched to the tool (the model result
carried at least one tool call and the invocation on the first one succeeded), and then
its status is 200; an answer with status 200 to a request that was not dispatched has
type `general`; an answer with status 200 has no error field; an answer with another
status has status 400 or 500 and carries an error field only, with no response field and
no type field. -/
theorem C5_type_invariant (host : Host) (agent : Agent) (medicines : Medicines)
    (question : Option String)
    (a : Answer) (ha : a ∈ (askHandler host agent medicines question).answers) :
    (a.body.type = some "prescription" ↔ dispatched host agent medicines question)
      ∧ (dispatched host agent medicines question → a.status = 200)
      ∧ (a.status = 200 → ¬ dispatched host agent medicines question →
          a.body.type = some "general")
      ∧ (a.status = 200 → a.body.error = none)
      ∧ (a.status ≠ 200 → (a.status = 400 ∨ a.status = 500)
          ∧ (∃ m, a.body.error = some m) ∧ a.body.response = none ∧ a.body.type = none) := by
  have hout := askHandler_outcome host agent medicines question
  generalize askHandler host agent medicines question = t at ha hout
  cases hout with
  | missing h =>
    have hnd : ¬ dispatched host agent medicines question := by
      rintro ⟨q, r, call, rest, out, hq, hne, -⟩
      rcases h with h | h <;> rw [h] at hq <;> cases hq
      exact hne rfl
    simp only [List.mem_singleton] at ha
    subst ha
    simp [hnd]
  | modelError q m hq hne h =>
    have hnd : ¬ dispatched host agent medicines question := by
      rintro ⟨q2, r, call, rest, out, hq2, -, h2, -⟩
      rw [hq] at hq2
      cases hq2
      rw [h] at h2
      cases h2
    simp only [List.mem_singleton] at ha
    subst ha
    simp [hnd]
  | prescription q r call rest out hq hne h hcalls hout2 =>
    have hd : dispatched host agent medicines question :=
      hq ▸ dispatched_of host agent medicines q r call rest out hne h hcalls hout2
    simp only [List.mem_singleton] at ha
    subst ha
    simp [hd]
  | toolError q r call rest m hq hne h hcalls herr =>
    have hnd : ¬ dispatched host agent medicines question := by
      rintro ⟨q2, r2, call2, rest2, out, hq2, -, h2, hcalls2, hout2⟩
      rw [hq] at hq2
      cases hq2
      rw [h] at h2
      cases h2
      rw [hcalls] at hcalls2
      cases hcalls2
      rw [herr] at hout2
      cases hout2
    simp only [List.mem_singleton] at ha
    subst ha
    simp [hnd]
  | general q r text hq hne h hcalls htext =>
    have hnd : ¬ dispatched host agent medicines question :=
      hq ▸ not_dispatched_of_noToolCall host agent medicines q r h hcalls
    simp only [List.mem_singleton] at ha
    subst ha
    simp [hnd]
  | contentError q r m hq hne h hcalls htext =>
    have hnd : ¬ dispatched host agent medicines question :=
      hq ▸ not_dispatched_of_noToolCall host agent medicines q r h hcalls
    simp only [List.mem_singleton] at ha
    subst ha
    simp [hnd]

/-- C5, amended, at the answer to a question that the model turns into a tool call for
`fever`. -/
theorem C5_type_invariant_witness :
    feverAnswer ∈ (askHandler sampleHost feverAgent sampleTable (some "I have a fever")).answers
      ∧ (feverAnswer.body.type = some "prescription"
          ↔ dispatched sampleHost feverAgent sampleTable (some "I have a fever"))
      ∧ (dispatched sampleHost feverAgent sampleTable (some "I have a fever") →
          feverAnswer.status = 200)
      ∧ (feverAnswer.status = 200 →
          ¬ dispatched sampleHost feverAgent sampleTable (some "I have a fever") →
          feverAnswer.body.type = some "general")
      ∧ (feverAnswer.status = 200 → feverAnswer.body.error = none)
      ∧ (feverAnswer.status ≠ 200 → (feverAnswer.status = 400 ∨ feverAnswer.status = 500)
          ∧ (∃ m, feverAnswer.body.error = some m) ∧ feverAnswer.body.response = none
          ∧ feverAnswer.body.type = none) :=
  ⟨by decide,
   C5_type_invariant sampleHost feverAgent sampleTable (some "I have a fever") feverAnswer
     (by decide)⟩

/-- C6, as stated, fails: the model result of `badArgsAgent` has a non-empty list of tool
calls, its first call has no string `symptoms` argument, the tool invocation throws on
the schema, and the handler answers 500 with the thrown message, with no response and no
type. -/
theorem C6_counterexample :
    badArgsAgent "hi"
        = .ok ⟨some [⟨"MedicinePrescribeTool", ⟨none⟩⟩], .blocks [⟨some "Hello"⟩]⟩
      ∧ askHandler sampleHost badArgsAgent sampleTable (some "hi")
        = ⟨[⟨500, ⟨some sampleHost.schemaError, none, none⟩⟩], ["hi"]⟩
      ∧ ∀ a ∈ (askHandler sampleHost badArgsAgent sampleTable (some "hi")).answers,
          a.status ≠ 200 ∧ a.body.type ≠ some "prescription" ∧ a.body.response = none :=
  ⟨rfl, by decide, by decide⟩

/-- C6, amended: for every non-empty question and every model result whose list of tool
calls is not empty and whose first call has the string `s` as its symptoms argument, the
handler calls the model once and sends one answer, with status 200, type `prescription`
and the response `func host medicines (some s)`; the answer is the same for every model
result with this first tool call, whatever its later tool calls and its content are. -/
theorem C6_first_tool_call (host : Host) (agent : Agent) (medicines : Medicines) (q : String)
    (r : ModelResult) (call : ToolCall) (rest : List ToolCall) (s : String)
    (hq : q ≠ "") (h : agent q = .ok r) (hcalls : r.tool_calls = some (call :: rest))
    (hs : call.args.symptoms = some s) :
    askHandler host agent medicines (some q)
        = ⟨[⟨200, ⟨none, some (func host medicines (some s)), some "prescription"⟩⟩], [q]⟩
      ∧ ∀ (later : List ToolCall) (content : MessageContent),
          askHandler host (fun _ => .ok ⟨some (call :: later), content⟩) medicines (some q)
            = askHandler host agent medicines (some q) := by
  have hout : toolInvoke host medicines call.args = .ok (func host medicines (some s)) := by
    simp [toolInvoke, hs]
  have hmain := askHandler_tool_ok host agent medicines q r call rest _ hq h hcalls hout
  refine ⟨hmain, ?_⟩
  intro later content
  rw [hmain]
  exact askHandler_tool_ok host _ medicines q ⟨some (call :: later), content⟩ call later _ hq
    rfl rfl hout

/-- C6, amended, at a model result with two tool calls: only the first one, for `fever`,
is answered. -/
theorem C6_first_tool_call_witness :
    askHandler sampleHost twoCallsAgent sampleTable (some "I am ill")
        = ⟨[⟨200, ⟨none, some (func sampleHost sampleTable (some "fever")),
              some "prescription"⟩⟩], ["I am ill"]⟩
      ∧ ∀ (later : List ToolCall) (content : MessageContent),
          askHandler sampleHost
              (fun _ => .ok ⟨some (⟨"MedicinePrescribeTool", ⟨some "fever"⟩⟩ :: later), content⟩)
              sampleTable (some "I am ill")
            = askHandler sampleHost twoCallsAgent sampleTable (some "I am ill") :=
  C6_first_tool_call sampleHost twoCallsAgent sampleTable "I am ill" _
    ⟨"MedicinePrescribeTool", ⟨some "fever"⟩⟩
    [⟨"MedicinePrescribeTool", ⟨some "headache"⟩⟩] "fever" (by decide) rfl rfl rfl

/-- C7 on the code, at a model result without tool call whose content is the bare string
`Hello`: `result.content[0]` is the string `H`, which has no `text` property, and the
handler sends a 200 answer of type `general` without a response field. -/
theorem C7_string_content_no_response :
    helloStringAgent "hi" = .ok ⟨some [], .str "Hello"⟩
      ∧ askHandler sampleHost helloStringAgent sampleTable (some "hi")
          = ⟨[⟨200, ⟨none, none, some "general"⟩⟩], ["hi"]⟩
      ∧ ∀ a ∈ (askHandler sampleHost helloStringAgent sampleTable (some "hi")).answers,
          a.body.response ≠ some "Hello" :=
  ⟨rfl, by decide, by decide⟩

/-- The general branch on a content that is an array of segments: when the model result
has no tool call and the first segment has the text `t`, the handler sends one answer with
status 200, type `general` and response `t`. -/
theorem askHandler_general_segments (host : Host) (agent : Agent) (medicines : Medicines) (q : String)
    (r : ModelResult) (b : ContentBlock) (bs : List ContentBlock) (t : String)
    (hq : q ≠ "") (h : agent q = .ok r) (hcalls : noToolCall r)
    (hcontent : r.content = .blocks (b :: bs)) (ht : b.text = some t) :
    askHandler host agent medicines (some q)
      = ⟨[⟨200, ⟨none, some t, some "general"⟩⟩], [q]⟩ :=
  askHandler_text_ok host agent medicines q r (some t) hq h hcalls
    (by simp [hcontent, firstText, ht])

/-- The general branch on a content that is a bare non-empty string: the answer has
status 200 and type `general`, and no response field. -/
theorem askHandler_general_string (host : Host) (agent : Agent) (medicines : Medicines) (q : String)
    (r : ModelResult) (t : String)
    (hq : q ≠ "") (h : agent q = .ok r) (hcalls : noToolCall r)
    (hcontent : r.content = .str t) (ht : t ≠ "") :
    askHandler host agent medicines (some q)
      = ⟨[⟨200, ⟨none, none, some "general"⟩⟩], [q]⟩ :=
  askHandler_text_ok host agent medicines q r none hq h hcalls
    (by simp [hcontent, firstText, ht])

/-- C8: a request whose question is absent or empty is answered with status 400 and the
body `{ error: "Missing 'question' field" }` alone, and the model is not called; a request
with a non-empty question gets no answer with status 400. -/
theorem C8_missing_question (host : Host) (agent : Agent) (medicines : Medicines) :
    askHandler host agent medicines none
        = ⟨[⟨400, ⟨some "Missing \x27question\x27 field", none, none⟩⟩], []⟩
      ∧ askHandler host agent medicines (some "")
        = ⟨[⟨400, ⟨some "Missing \x27question\x27 field", none, none⟩⟩], []⟩
      ∧ ∀ q : String, q ≠ "" →
          ∀ a ∈ (askHandler host agent medicines (some q)).answers, a.status ≠ 400 := by
  refine ⟨askHandler_absent host agent medicines, askHandler_empty host agent medicines, ?_⟩
  intro q hq a ha
  have hout := askHandler_outcome host agent medicines (some q)
  generalize askHandler host agent medicines (some q) = t at ha hout
  cases hout with
  | missing h =>
    rcases h with h | h
    · cases h
    · cases h
      exact absurd rfl hq
  | modelError | prescription | toolError | general | contentError =>
    simp only [List.mem_singleton] at ha
    subst ha
    simp

/-- C8 at the failing model and the question `hi`. -/
theorem C8_missing_question_witness :
    askHandler sampleHost failingAgent sampleTable none
        = ⟨[⟨400, ⟨some "Missing \x27question\x27 field", none, none⟩⟩], []⟩
      ∧ askHandler sampleHost failingAgent sampleTable (some "")
        = ⟨[⟨400, ⟨some "Missing \x27question\x27 field", none, none⟩⟩], []⟩
      ∧ ∀ a ∈ (askHandler sampleHost failingAgent sampleTable (some "hi")).answers,
          a.status ≠ 400 :=
  ⟨(C8_missing_question sampleHost failingAgent sampleTable).1,
   (C8_missing_question sampleHost failingAgent sampleTable).2.1,
   (C8_missing_question sampleHost failingAgent sampleTable).2.2 "hi" (by decide)⟩

/-- C9: for every non-empty question, when the model call throws an error with message
`m`, or the tool invocation on the first tool call does, the handler sends one answer,
with status 500 and the body `{ error: m }`, which has no response field and no type
field; and for every request the handler sends at most one answer. -/
theorem C9_thrown_error (host : Host) (agent : Agent) (medicines : Medicines) (q m : String)
    (hq : q ≠ "")
    (hthrow : agent q = .error m
      ∨ ∃ r call rest, agent q = .ok r ∧ r.tool_calls = some (call :: rest)
          ∧ toolInvoke host medicines call.args = .error m) :
    askHandler host agent medicines (some q) = ⟨[⟨500, ⟨some m, none, none⟩⟩], [q]⟩
      ∧ (∀ a ∈ (askHandler host agent medicines (some q)).answers,
          a.status = 500 ∧ a.body.error = some m ∧ a.body.response = none
            ∧ a.body.type = none)
      ∧ ∀ question : Option String,
          (askHandler host agent medicines question).answers.length ≤ 1 := by
  have hmain : askHandler host agent medicines (some q) = ⟨[⟨500, ⟨some m, none, none⟩⟩], [q]⟩ := by
    rcases hthrow with h | ⟨r, call, rest, h, hcalls, herr⟩
    · exact askHandler_model_error host agent medicines q m hq h
    · exact askHandler_tool_error host agent medicines q r call rest m hq h hcalls herr
  refine ⟨hmain, ?_, ?_⟩
  · rw [hmain]
    intro a ha
    simp only [List.mem_singleton] at ha
    subst ha
    exact ⟨rfl, rfl, rfl, rfl⟩
  · intro question
    have hout := askHandler_outcome host agent medicines question
    generalize askHandler host agent medicines question = t at hout
    cases hout <;> simp

/-- C9 at a model whose call fails with the message `fetch failed`. -/
theorem C9_thrown_error_witness :
    askHandler sampleHost failingAgent sampleTable (some "hi")
        = ⟨[⟨500, ⟨some "fetch failed", none, none⟩⟩], ["hi"]⟩
      ∧ (∀ a ∈ (askHandler sampleHost failingAgent sampleTable (some "hi")).answers,
          a.status = 500 ∧ a.body.error = some "fetch failed" ∧ a.body.response = none
            ∧ a.body.type = none)
      ∧ ∀ question : Option String,
          (askHandler sampleHost failingAgent sampleTable question).answers.length ≤ 1 :=
  C9_thrown_error sampleHost failingAgent sampleTable "hi" "fetch failed" (by decide) (Or.inl rfl)

/-! ## Lemmas on `trim` and `split` -/

theorem splitList_ne_nil (sep : Char) (l : List Char) : splitList sep l ≠ [] := by
  induction l with
  | nil => simp [splitList]
  | cons c cs ih =>
    unfold splitList
    split
    · simp
    · split <;> simp

theorem splitList_of_not_mem (sep : Char) (l : List Char) (h : sep ∉ l) :
    splitList sep l = [l] := by
  induction l with
  | nil => rfl
  | cons c cs ih =>
    have hc : c ≠ sep := fun e => h (e ▸ List.mem_cons_self _ _)
    have hcs : sep ∉ cs := fun e => h (List.mem_cons_of_mem _ e)
    simp [splitList, hc, ih hcs]

theorem splitList_append (sep : Char) (a b : List Char) (h : sep ∉ a) :
    splitList sep (a ++ sep :: b) = a :: splitList sep b := by
  induction a with
  | nil => simp [splitList]
  | cons c cs ih =>
    have hc : c ≠ sep := fun e => h (e ▸ List.mem_cons_self _ _)
    have hcs : sep ∉ cs := fun e => h (List.mem_cons_of_mem _ e)
    simp [splitList, hc, ih hcs]

/-- A list that starts and ends with characters that are not white space is its own trim -/
theorem trimList_of_ends (c d : Char) (l : List Char) (hc : isWhiteSpace c = false)
    (hd : isWhiteSpace d = false) : trimList (c :: l ++ [d]) = c :: l ++ [d] := by
  simp [trimList, List.dropWhile, hc, hd]

theorem trimList_single (c : Char) (hc : isWhiteSpace c = false) : trimList [c] = [c] := by
  simp [trimList, List.dropWhile, hc]

theorem trimList_length_le (l : List Char) : (trimList l).length ≤ l.length := by
  unfold trimList
  rw [List.length_reverse]
  calc ((l.dropWhile isWhiteSpace).reverse.dropWhile isWhiteSpace).length
      ≤ ((l.dropWhile isWhiteSpace).reverse).length := (List.dropWhile_sublist _).length_le
    _ = (l.dropWhile isWhiteSpace).length := List.length_reverse _
    _ ≤ l.length := (List.dropWhile_sublist _).length_le

theorem head_of_trimList_eq (c : Char) (l : List Char) (h : trimList (c :: l) = c :: l) :
    isWhiteSpace c = false := by
  by_contra hc
  simp only [Bool.not_eq_false] at hc
  have h1 : trimList (c :: l) = trimList l := by
    simp [trimList, List.dropWhile, hc]
  have h2 := trimList_length_le l
  rw [← h1, h] at h2
  simp at h2

theorem dropWhile_head_false (p : Char → Bool) (l t : List Char) (d : Char)
    (h : l.dropWhile p = d :: t) : p d = false := by
  induction l with
  | nil => simp at h
  | cons c cs ih =>
    by_cases hc : p c = true
    · rw [List.dropWhile_cons_of_pos hc] at h
      exact ih h
    · rw [List.dropWhile_cons_of_neg hc] at h
      cases h
      simpa using hc

theorem last_of_trimList_eq (l : List Char) (d : Char) (h : trimList (l ++ [d]) = l ++ [d]) :
    isWhiteSpace d = false := by
  unfold trimList at h
  have h2 := congrArg List.reverse h
  rw [List.reverse_reverse] at h2
  simp only [List.reverse_append, List.reverse_cons, List.reverse_nil, List.nil_append,
    List.singleton_append] at h2
  exact dropWhile_head_false _ _ _ _ h2

/-- A non-empty list that is its own trim starts and ends with a character that is not
white space -/
theorem ends_of_trimList_eq (l : List Char) (hne : l ≠ []) (h : trimList l = l) :
    (∃ c t, l = c :: t ∧ isWhiteSpace c = false)
      ∧ ∃ t d, l = t ++ [d] ∧ isWhiteSpace d = false := by
  constructor
  · cases l with
    | nil => exact absurd rfl hne
    | cons c t => exact ⟨c, t, rfl, head_of_trimList_eq c t h⟩
  · rcases List.eq_nil_or_concat l with hl | ⟨t, d, hl⟩
    · exact absurd hl hne
    · rw [List.concat_eq_append] at hl
      subst hl
      exact ⟨t, d, rfl, last_of_trimList_eq t d h⟩

/-- A list that is its own trim stays so after a prefix that starts with a character that is
not white space -/
theorem trimList_append (c : Char) (a l : List Char) (hc : isWhiteSpace c = false)
    (hne : l ≠ []) (h : trimList l = l) : trimList (c :: a ++ l) = c :: a ++ l := by
  obtain ⟨-, t, d, rfl, hd⟩ := ends_of_trimList_eq l hne h
  have := trimList_of_ends c d (a ++ t) hc hd
  simpa [List.append_assoc] using this

/-- White space before a list that is its own trim is stripped -/
theorem trimList_space_cons (l : List Char) (h : trimList l = l) :
    trimList (' ' :: l) = l := by
  have : trimList (' ' :: l) = trimList l := by
    simp [trimList, List.dropWhile, isWhiteSpace]
  rw [this, h]

theorem trim_eq_self (s : String) (h : trimList s.data = s.data) : trim s = s := by
  cases s with
  | mk l => simp only [trim] at *; rw [h]

theorem data_of_trim_eq (m : String) (h : trim m = m) : trimList m.data = m.data := by
  have := congrArg String.data h
  simpa [trim] using this

theorem data_ne_nil (m : String) (h : m ≠ "") : m.data ≠ [] := by
  intro hd
  apply h
  cases m with
  | mk l => simp only at hd; subst hd; rfl

/-- The header line `For s:` is its own trim. -/
theorem trim_headerLine (s : String) : trim ("For " ++ s ++ ":") = "For " ++ s ++ ":" := by
  apply trim_eq_self
  have hd : ("For " ++ s ++ ":").data = 'F' :: (['o', 'r', ' '] ++ s.data) ++ [':'] := by
    simp [String.data_append]
  rw [hd]
  exact trimList_of_ends 'F' ':' _ (by decide) (by decide)

/-- The header line is shown as a header. -/
theorem classify_headerLine (s : String) :
    classify ("For " ++ s ++ ":") = .header ("For " ++ s ++ ":") := by
  have hp : startsWith ("For " ++ s ++ ":") "For " = true := by
    simp [startsWith, String.data_append, String.append_assoc]
  simp [classify, hp]

/-- The line of a medicine name that is its own trim is its own trim. -/
theorem trim_medicineLine (m : String) (hne : m ≠ "") (htrim : trim m = m) :
    trim ("Recommended Medicine: " ++ m) = "Recommended Medicine: " ++ m := by
  apply trim_eq_self
  have hd : ("Recommended Medicine: " ++ m).data
      = 'R' :: "ecommended Medicine: ".data ++ m.data := by
    simp [String.data_append]
  rw [hd]
  exact trimList_append 'R' _ m.data (by decide) (data_ne_nil m hne)
    (data_of_trim_eq m htrim)

/-- The line of a medicine name without colon that is its own trim is shown as a card
with the whole name as its value. -/
theorem classify_medicineLine (m : String) (hcolon : ':' ∉ m.data) (htrim : trim m = m) :
    classify ("Recommended Medicine: " ++ m) = .card "Recommended Medicine" m := by
  have hp : startsWith ("Recommended Medicine: " ++ m) "For " = false := by
    simp [startsWith, String.data_append, List.isPrefixOf]
  have hi : includes ("Recommended Medicine: " ++ m) ":" = true := by
    have := includes_append_mid "Recommended Medicine" ":" (" " ++ m)
    simpa [String.append_assoc] using this
  have hsplit : split ("Recommended Medicine: " ++ m) ':'
      = ["Recommended Medicine", " " ++ m] := by
    have hd : ("Recommended Medicine: " ++ m).data
        = "Recommended Medicine".data ++ ':' :: (' ' :: m.data) := by
      simp [String.data_append]
    have hb : ':' ∉ ' ' :: m.data := by
      simp only [List.mem_cons, not_or]
      exact ⟨by decide, hcolon⟩
    simp only [split]
    rw [hd, splitList_append ':' _ _ (by decide), splitList_of_not_mem ':' _ hb]
    simp [String.ext_iff, String.data_append]
  have hl : trim "Recommended Medicine" = "Recommended Medicine" := by decide
  have hv : trim (" " ++ m) = m := by
    have hd : (" " ++ m).data = ' ' :: m.data := by simp [String.data_append]
    apply String.ext
    simp only [trim]
    rw [hd]
    exact trimList_space_cons m.data (data_of_trim_eq m htrim)
  simp [classify, hp, hi, hsplit, hl, hv]

/-- The found message of the lookup tool splits into its four lines, when neither the
symptom nor the medicine name holds a newline. -/
theorem split_foundMessage (s m : String) (hs : '\n' ∉ s.data) (hm : '\n' ∉ m.data) :
    split (foundMessage s m) '\n'
      = ["For " ++ s ++ ":", "Recommended Medicine: " ++ m, adultDosageLine,
         childDosageLine] := by
  have hd : (foundMessage s m).data
      = ("For " ++ s ++ ":").data ++ '\n' :: (("Recommended Medicine: " ++ m).data
          ++ '\n' :: (adultDosageLine.data ++ '\n' :: childDosageLine.data)) := by
    simp [foundMessage, String.data_append]
  have h1 : '\n' ∉ ("For " ++ s ++ ":").data := by
    simp [String.data_append, hs]
  have h2 : '\n' ∉ ("Recommended Medicine: " ++ m).data := by
    simp [String.data_append, hm]
  have h3 : '\n' ∉ adultDosageLine.data := by decide
  have h4 : '\n' ∉ childDosageLine.data := by decide
  simp only [split]
  rw [hd, splitList_append '\n' _ _ h1, splitList_append '\n' _ _ h2,
    splitList_append '\n' _ _ h3, splitList_of_not_mem '\n' _ h4]
  rfl

/-- Where `formatPrescription` is faithful: for a symptom and a medicine name without
newline, the name having no colon, no white space at its ends and being non-empty, the
found message of the lookup tool is shown as one header `For s:` followed by the three
cards, the first of which has the whole medicine name as its value. -/
theorem prescriptionBlocks_foundMessage (s m : String)
    (hs : '\n' ∉ s.data) (hm : '\n' ∉ m.data) (hcolon : ':' ∉ m.data)
    (htrim : trim m = m) (hne : m ≠ "") :
    prescriptionBlocks (foundMessage s m)
      = [.header ("For " ++ s ++ ":"), .card "Recommended Medicine" m,
         .card "Adult Dosage" "1 tablet twice daily",
         .card "Child Dosage" "½ tablet twice daily (consult pediatrician before use)"] := by
  have t1 := trim_headerLine s
  have t2 := trim_medicineLine m hne htrim
  have t3 : trim adultDosageLine = adultDosageLine := by decide
  have t4 : trim childDosageLine = childDosageLine := by decide
  have n1 : "For " ++ s ++ ":" ≠ "" := by
    intro h
    have := congrArg String.data h
    simp [String.data_append] at this
  have n2 : "Recommended Medicine: " ++ m ≠ "" := by
    intro h
    have := congrArg String.data h
    simp [String.data_append] at this
  have n3 : adultDosageLine ≠ "" := by decide
  have n4 : childDosageLine ≠ "" := by decide
  have c3 : classify adultDosageLine = .card "Adult Dosage" "1 tablet twice daily" := by
    decide
  have c4 : classify childDosageLine
      = .card "Child Dosage" "½ tablet twice daily (consult pediatrician before use)" := by
    decide
  simp only [prescriptionBlocks, prescriptionLines, split_foundMessage s m hs hm]
  simp [List.filter, t1, t2, t3, t4, n1, n2, n3, n4, classify_headerLine,
    classify_medicineLine m hcolon htrim, c3, c4]

/-! ## The dashboard: claim C10 -/

/-- C10 on the code, at the symptom `fever` and the medicine name `Paracetamol: 500mg`:
the line of the medicine is split at every colon and only the first two pieces are kept,
so the card shows `Paracetamol` and the rest of the name, `500mg`, is nowhere in the
markup. -/
theorem C10_colon_in_medicine_dropped :
    func sampleHost colonTable (some "fever") = foundMessage "fever" "Paracetamol: 500mg"
      ∧ prescriptionBlocks (func sampleHost colonTable (some "fever"))
          = [.header "For fever:", .card "Recommended Medicine" "Paracetamol",
             .card "Adult Dosage" "1 tablet twice daily",
             .card "Child Dosage" "½ tablet twice daily (consult pediatrician before use)"]
      ∧ includes (formatPrescription (func sampleHost colonTable (some "fever"))) "500mg"
          = false
      ∧ includes (formatPrescription (func sampleHost sampleTable (some "fever")))
          "Paracetamol" = true := by
  decide

end SmartMedicalAgent
